import Mathlib

deriving instance DecidableEq for Except

/-!
Shallow embedding of the referral-rewards processor
(`referral-rewards-processor.js`) together with the database trigger
`update_qualification_status` from the repository's SQL schema.

Conventions of the embedding:
* JavaScript numbers that may be `undefined` are modelled as `Option Nat`;
  the JS expression `x || d` on a number (where both `0` and `undefined`
  are falsy) is modelled by `jsOrNat`.
* Asynchronous network calls are modelled by response functions
  (`Nat → ...`) indexed by the attempt number; thrown exceptions are
  modelled by `Except`.
* The two bounded loops (`sendRequestWithRetry`, `pollReferralReport`)
  are written with an explicit fuel argument equal to the number of
  attempts remaining, so `fuel = 0` inside the loop body corresponds to
  the JS test `attempt === MAX - 1` (last attempt).
-/

namespace Referral

/- CONFIG constants (source lines 14-54). -/

def MAX_RETRIES : Nat := 3

def INITIAL_RETRY_DELAY : Nat := 1000

def MAX_RETRY_DELAY : Nat := 10000

def POLL_INTERVAL_MS : Nat := 3000

def POLL_MAX_ATTEMPTS : Nat := 100

/-- JS truthiness default on numbers: `v || d` where both `undefined`
and `0` are falsy.  Used at source lines 551 (`... || 0`), 592
(`... || 0`) and 597 (`... || 1`). -/
def jsOrNat (v : Option Nat) (d : Nat) : Nat :=
  match v with
  | none => d
  | some n => if n = 0 then d else n

/- Location mapping (source lines 37-41 and 458-460). -/

/-- `CONFIG.LOCATIONS[name]`: the three-entry location map. -/
def LOCATIONS (name : String) : Option Nat :=
  if name = "Kwality House, Kemps Corner" then some 9030
  else if name = "Supreme HQ, Bandra" then some 29821
  else if name = "Kenkere House" then some 22116
  else none

/-- `getLocationIdFromName` (source line 458-460):
`CONFIG.LOCATIONS[locationName] || CONFIG.LOCATIONS["Kwality House, Kemps Corner"]`.
The argument is an `Option` because the record's `homeLocation` may be
absent; indexing a JS object with `undefined` yields `undefined`.
No mapped id is `0`, so JS `||` coincides with `Option.getD`. -/
def getLocationIdFromName (locationName : Option String) : Nat :=
  match locationName with
  | none => 9030
  | some n => (LOCATIONS n).getD 9030

/- Resilient request executor `sendRequestWithRetry` (source lines 99-135). -/

/-- The backoff delay waited after a failed attempt `attempt`
(source lines 127-130):
`Math.min(INITIAL_RETRY_DELAY * 2^(attempt-1), MAX_RETRY_DELAY)`. -/
def retryDelayMs (attempt : Nat) : Nat :=
  min (INITIAL_RETRY_DELAY * 2 ^ (attempt - 1)) MAX_RETRY_DELAY

/-- The retry loop body of `sendRequestWithRetry`.  `attempts k` is the
outcome of the `k`-th attempt (1-based, `.ok` = HTTP success below 400,
`.error` = thrown error).  `fuel + 1` is the number of attempts still
allowed, so `fuel = 0` is the JS test `attempt === CONFIG.MAX_RETRIES`.
`waited` accumulates the total backoff delay.  Returns the final outcome
together with the total delay waited.  The `fuel = 0` entry case is
unreachable: the loop is entered with `MAX_RETRIES ≥ 1` attempts. -/
def retryLoop (attempts : Nat → Except String α) :
    Nat → Nat → Nat → Except String α × Nat
  | _, 0, waited => (.error "", waited)
  | attempt, fuel + 1, waited =>
    match attempts attempt with
    | .ok a => (.ok a, waited)
    | .error e =>
      if fuel = 0 then (.error e, waited)
      else retryLoop attempts (attempt + 1) fuel (waited + retryDelayMs attempt)

/-- `sendRequestWithRetry` (source lines 99-135), abstracted over the
per-attempt network outcome; also returns the total delay waited. -/
def sendRequestWithRetry (attempts : Nat → Except String α) :
    Except String α × Nat :=
  retryLoop attempts 1 MAX_RETRIES 0

/- Report lifecycle controller `pollReferralReport` (source lines 258-294). -/

/-- Outcome of one status poll (one `sendRequestWithRetry` call inside the
loop).  `completed` carries the two places items may live
(`response.reportData?.items` and `response.items`); `pending` also covers
any unrecognised status string (the JS falls through to the delay);
`requestError` is a thrown error from the request itself. -/
inductive PollResponse (α : Type) where
  | pending : PollResponse α
  | completed (reportDataItems : Option (List α)) (items : Option (List α)) : PollResponse α
  | failed : PollResponse α
  | requestError (e : String) : PollResponse α
deriving DecidableEq

/-- Errors the polling operation can raise. -/
inductive PollError where
  | timeout : PollError
  | serverFailed : PollError
  | request (e : String) : PollError
deriving DecidableEq

/-- Item extraction on a completed report (source line 275):
`response.reportData?.items || response.items || []`.  A present array is
truthy in JS even when empty, so a present `reportData.items` always wins. -/
def extractItems (reportDataItems : Option (List α)) (items : Option (List α)) :
    List α :=
  match reportDataItems with
  | some l => l
  | none => items.getD []

/-- The polling loop of `pollReferralReport` (source lines 263-291).
`responses k` is the outcome of the poll at loop index `k` (0-based).
`fuel + 1` is the number of attempts remaining, so `fuel = 0` inside the
body is the JS test `attempt === CONFIG.POLL_MAX_ATTEMPTS - 1`.  A
`failed` status raises an error that the loop's own `catch` swallows on
every attempt but the last, where it propagates; the same holds for a
request error.  Exhausting the loop raises the timeout error
(source line 293). -/
def pollLoop (responses : Nat → PollResponse α) :
    Nat → Nat → Except PollError (List α)
  | _, 0 => .error .timeout
  | attempt, fuel + 1 =>
    match responses attempt with
    | .completed reportDataItems items => .ok (extractItems reportDataItems items)
    | .failed =>
      if fuel = 0 then .error .serverFailed
      else pollLoop responses (attempt + 1) fuel
    | .requestError e =>
      if fuel = 0 then .error (.request e)
      else pollLoop responses (attempt + 1) fuel
    | .pending => pollLoop responses (attempt + 1) fuel

/-- `pollReferralReport` (source lines 258-294), abstracted over the
per-poll outcome. -/
def pollReferralReport (responses : Nat → PollResponse α) :
    Except PollError (List α) :=
  pollLoop responses 0 POLL_MAX_ATTEMPTS

/- Data model. -/

/-- A customer returned by `fetchCustomersWithOneVisit` (the candidate set);
the fields the processor reads (source lines 528, 587-590). -/
structure Candidate where
  memberId : Nat
  email : String
  firstName : String
  lastName : String
deriving DecidableEq

/-- One row of the referral report (the fields the processor reads,
source lines 538-597).  `receivingMemberVisits`, `receivingMemberTotalSpend`
and `homeLocation` may be absent in the payload. -/
structure ReferralRecord where
  givingMemberId : Nat
  givingMemberFirstName : String
  givingMemberLastName : String
  receivingMemberId : Nat
  receivingMemberEmail : String
  receivingMemberVisits : Option Nat
  receivingMemberTotalSpend : Option Nat
  homeLocation : Option String
deriving DecidableEq

/-- A row of the `referral_rewards` table (the columns relevant to the
processor; schema in the repository's SQL file). -/
structure LedgerRow where
  givingMemberId : Nat
  receivingMemberId : Nat
  givingMemberRewarded : Bool
  receivingMemberVisits : Nat
  receivingMemberTotalSpend : Nat
  receivingMemberEmail : String
  homeLocation : Option String
  processing_status : String
deriving DecidableEq

/-- The record object built at source lines 586-598 and passed to
`updateSupabaseRecord`. -/
structure SupabaseRecord where
  receivingMemberEmail : String
  receivingMemberId : Nat
  receivingMemberFirstName : String
  receivingMemberLastName : String
  givingMemberRewarded : Bool
  receivingMemberTotalSpend : Nat
  givingMemberFirstName : String
  givingMemberLastName : String
  givingMemberId : Nat
  homeLocation : Option String
  receivingMemberVisits : Nat
deriving DecidableEq

/-- Result of `checkIfAlreadyProcessed` (source lines 313-317). -/
structure ProcessStatus where
  processed : Bool
  rewarded : Bool
  status : Option String
deriving DecidableEq

/- Ledger gate. -/

/-- The Supabase point query of source lines 301-305: all rows of the
table matching both `givingMemberId` and `receivingMemberId`. -/
def ledgerLookup (ledger : List LedgerRow) (g r : Nat) : List LedgerRow :=
  ledger.filter (fun row => row.givingMemberId == g && row.receivingMemberId == r)

/-- `checkIfAlreadyProcessed` (source lines 299-322), abstracted over the
query outcome (`.error` covers both a Supabase query error and a thrown
exception, lines 307-310 and 318-321).  On success, `existingRecord` is
the first returned row if any (line 312); `processed = !!existingRecord`,
`rewarded = existingRecord?.givingMemberRewarded || false`,
`status = existingRecord?.processing_status || null`. -/
def checkIfAlreadyProcessed (result : Except String (List LedgerRow)) :
    ProcessStatus :=
  match result with
  | .error _ => { processed := false, rewarded := false, status := none }
  | .ok data =>
    match data.head? with
    | none => { processed := false, rewarded := false, status := none }
    | some row =>
      { processed := true
        rewarded := row.givingMemberRewarded
        status := if row.processing_status = "" then none else some row.processing_status }

/-- The database trigger `update_qualification_status` (SQL file, applied
`BEFORE INSERT OR UPDATE`): sets `processing_status` to `qualified` when
`receivingMemberVisits >= 1` and to `not_qualified` otherwise.  The
comment columns are not modelled. -/
def update_qualification_status (row : LedgerRow) : LedgerRow :=
  { row with processing_status :=
      if 1 ≤ row.receivingMemberVisits then "qualified" else "not_qualified" }

/-- The fresh row built from a `SupabaseRecord` by the insert of
`updateSupabaseRecord` (source lines 383-401); `processing_status` starts
at its schema default before the trigger runs. -/
def recordToRow (rec : SupabaseRecord) : LedgerRow :=
  { givingMemberId := rec.givingMemberId
    receivingMemberId := rec.receivingMemberId
    givingMemberRewarded := rec.givingMemberRewarded
    receivingMemberVisits := rec.receivingMemberVisits
    receivingMemberTotalSpend := rec.receivingMemberTotalSpend
    receivingMemberEmail := rec.receivingMemberEmail
    homeLocation := rec.homeLocation
    processing_status := "pending" }

/-- The conflict-path update of `updateSupabaseRecord` (source lines
414-424) applied to one stored row: rows matching the pair get their
`receivingMemberTotalSpend`, `receivingMemberVisits` and
`givingMemberRewarded` overwritten, and the `BEFORE UPDATE` trigger
recomputes `processing_status`; other rows are untouched. -/
def applyConflictUpdate (rec : SupabaseRecord) (row : LedgerRow) : LedgerRow :=
  if row.givingMemberId == rec.givingMemberId &&
      row.receivingMemberId == rec.receivingMemberId then
    update_qualification_status
      { row with
        receivingMemberTotalSpend := rec.receivingMemberTotalSpend
        receivingMemberVisits := rec.receivingMemberVisits
        givingMemberRewarded := rec.givingMemberRewarded }
  else row

/-- `updateSupabaseRecord` (source lines 380-442) against an in-memory
ledger: the insert succeeds when no row with the unique pair key exists
(the new row passing through the `BEFORE INSERT` trigger); a uniqueness
conflict (`23505`) falls back to the update keyed on the pair.  Returns
the new ledger state and the success flag. -/
def updateSupabaseRecord (ledger : List LedgerRow) (rec : SupabaseRecord) :
    List LedgerRow × Bool :=
  if (ledgerLookup ledger rec.givingMemberId rec.receivingMemberId).isEmpty then
    (ledger ++ [update_qualification_status (recordToRow rec)], true)
  else
    (ledger.map (applyConflictUpdate rec), true)

/- Main processing loop (source lines 484-635). -/

/-- The candidate lookup map of source lines 526-529: `Map.set` keyed on
`memberId` lets a later duplicate overwrite an earlier one, so `get`
returns the last candidate with the id. -/
def customerMapGet (customers : List Candidate) (id : Nat) : Option Candidate :=
  (customers.filter (fun c => c.memberId == id)).getLast?

/-- Everything observable from processing one referral record
(the loop body, source lines 534-612). -/
structure StepResult where
  ledger : List LedgerRow
  skipped : Bool
  rewarded : Bool
  issuerCalls : List (Nat × Nat)
  ledgerLookups : Nat
  commits : Nat
deriving DecidableEq

/-- The loop body of `processReferralRewards` for one referral record
(source lines 534-612).  `issuer referral` is the outcome of
`rewardGivingMember` (which returns a success flag and never throws,
source lines 327-375); `readOk` says whether the ledger point query
succeeds (`false` makes `checkIfAlreadyProcessed` take its error path).
`issuerCalls` lists the `(givingMemberId, homeLocationId)` pairs passed
to `rewardGivingMember`; `ledgerLookups` counts `checkIfAlreadyProcessed`
calls; `commits` counts `updateSupabaseRecord` calls. -/
def processRecord (customers : List Candidate) (issuer : ReferralRecord → Bool)
    (readOk : Bool) (ledger : List LedgerRow) (referral : ReferralRecord) :
    StepResult :=
  -- line 544-547: unmatched receiving member is skipped before any ledger access
  match customerMapGet customers referral.receivingMemberId with
  | none =>
    { ledger := ledger, skipped := false, rewarded := false
      issuerCalls := [], ledgerLookups := 0, commits := 0 }
  | some receivingMember =>
    -- line 551: const isQualified = (referral.receivingMemberVisits || 0) >= 1
    let isQualified := 1 ≤ jsOrNat referral.receivingMemberVisits 0
    -- lines 556-560
    let lookupResult : Except String (List LedgerRow) :=
      if readOk then
        .ok (ledgerLookup ledger referral.givingMemberId referral.receivingMemberId)
      else .error "Supabase query error"
    let processStatus := checkIfAlreadyProcessed lookupResult
    -- lines 562-570: any existing row, rewarded or not, skips the record
    if processStatus.processed then
      { ledger := ledger, skipped := true, rewarded := false
        issuerCalls := [], ledgerLookups := 1, commits := 0 }
    else
      -- lines 572-583
      let homeLocationId := getLocationIdFromName referral.homeLocation
      let rewardSuccess := if isQualified then issuer referral else false
      let calls := if isQualified then [(referral.givingMemberId, homeLocationId)] else []
      -- lines 586-598
      let referralRecord : SupabaseRecord :=
        { receivingMemberEmail := receivingMember.email
          receivingMemberId := referral.receivingMemberId
          receivingMemberFirstName := receivingMember.firstName
          receivingMemberLastName := receivingMember.lastName
          givingMemberRewarded := rewardSuccess
          receivingMemberTotalSpend := jsOrNat referral.receivingMemberTotalSpend 0
          givingMemberFirstName := referral.givingMemberFirstName
          givingMemberLastName := referral.givingMemberLastName
          givingMemberId := referral.givingMemberId
          homeLocation := referral.homeLocation
          receivingMemberVisits := jsOrNat referral.receivingMemberVisits 1 }
      -- line 601
      let committed := updateSupabaseRecord ledger referralRecord
      { ledger := committed.1, skipped := false, rewarded := rewardSuccess
        issuerCalls := calls, ledgerLookups := 1, commits := 1 }

/-- Aggregate result of one run (counters of source lines 521-523 plus
the ledger state and the issuer calls made). -/
structure RunResult where
  ledger : List LedgerRow
  processedCount : Nat
  rewardedCount : Nat
  skippedCount : Nat
  issuerCalls : List (Nat × Nat)
deriving DecidableEq

/-- `processReferralRewards` (source lines 484-635), abstracted over the
collected candidate set, the report items and the external outcomes.
An empty candidate set or an empty report ends the run early
(lines 505-508 and 514-517); otherwise the records are folded in order
through the loop body. -/
def processReferralRewards (customers : List Candidate)
    (issuer : ReferralRecord → Bool) (readOk : Bool)
    (ledger0 : List LedgerRow) (referralData : List ReferralRecord) : RunResult :=
  if customers.isEmpty || referralData.isEmpty then
    { ledger := ledger0, processedCount := 0, rewardedCount := 0
      skippedCount := 0, issuerCalls := [] }
  else
    referralData.foldl
      (fun acc referral =>
        let step := processRecord customers issuer readOk acc.ledger referral
        { ledger := step.ledger
          processedCount := acc.processedCount + 1
          rewardedCount := acc.rewardedCount + (if step.rewarded then 1 else 0)
          skippedCount := acc.skippedCount + (if step.skipped then 1 else 0)
          issuerCalls := acc.issuerCalls ++ step.issuerCalls })
      { ledger := ledger0, processedCount := 0, rewardedCount := 0
        skippedCount := 0, issuerCalls := [] }

/- Concrete example data used by witnesses and counterexamples. -/

/-- A candidate with member id 2. -/
def candB : Candidate :=
  { memberId := 2, email := "b@x.com", firstName := "B", lastName := "Two" }

/-- A ledger row for the pair (1, 2) that exists but is not yet rewarded. -/
def rowAB : LedgerRow :=
  { givingMemberId := 1, receivingMemberId := 2, givingMemberRewarded := false
    receivingMemberVisits := 5, receivingMemberTotalSpend := 100
    receivingMemberEmail := "b@x.com", homeLocation := some "Kenkere House"
    processing_status := "qualified" }

/-- A report row for the pair (1, 2) carrying fresher visit and spend data. -/
def refAB : ReferralRecord :=
  { givingMemberId := 1, givingMemberFirstName := "A", givingMemberLastName := "One"
    receivingMemberId := 2, receivingMemberEmail := "b@x.com"
    receivingMemberVisits := some 7, receivingMemberTotalSpend := some 200
    homeLocation := some "Kenkere House" }

/-- The snapshot record the commit would carry for the pair (1, 2). -/
def recAB : SupabaseRecord :=
  { receivingMemberEmail := "b@x.com", receivingMemberId := 2
    receivingMemberFirstName := "B", receivingMemberLastName := "Two"
    givingMemberRewarded := false, receivingMemberTotalSpend := 200
    givingMemberFirstName := "A", givingMemberLastName := "One"
    givingMemberId := 1, homeLocation := some "Kenkere House"
    receivingMemberVisits := 7 }

/-- A candidate with member id 5. -/
def candD : Candidate :=
  { memberId := 5, email := "d@x.com", firstName := "D", lastName := "Five" }

/-- A ledger row for the pair (4, 5) whose giver was already rewarded. -/
def rowCD : LedgerRow :=
  { givingMemberId := 4, receivingMemberId := 5, givingMemberRewarded := true
    receivingMemberVisits := 3, receivingMemberTotalSpend := 50
    receivingMemberEmail := "d@x.com", homeLocation := none
    processing_status := "qualified" }

/-- A report row for the already-rewarded pair (4, 5). -/
def refCD : ReferralRecord :=
  { givingMemberId := 4, givingMemberFirstName := "C", givingMemberLastName := "Four"
    receivingMemberId := 5, receivingMemberEmail := "d@x.com"
    receivingMemberVisits := some 3, receivingMemberTotalSpend := some 50
    homeLocation := none }

/-- A candidate with member id 8. -/
def candE : Candidate :=
  { memberId := 8, email := "e@x.com", firstName := "E", lastName := "Eight" }

/-- A fresh qualified report row for the pair (7, 8). -/
def refE : ReferralRecord :=
  { givingMemberId := 7, givingMemberFirstName := "G", givingMemberLastName := "Seven"
    receivingMemberId := 8, receivingMemberEmail := "e@x.com"
    receivingMemberVisits := some 2, receivingMemberTotalSpend := some 90
    homeLocation := some "Supreme HQ, Bandra" }

/-- A report row whose receiving member (104) is in no candidate set used here. -/
def ref104 : ReferralRecord :=
  { givingMemberId := 2, givingMemberFirstName := "X", givingMemberLastName := "Y"
    receivingMemberId := 104, receivingMemberEmail := "z@x.com"
    receivingMemberVisits := some 5, receivingMemberTotalSpend := some 10
    homeLocation := none }

/-- A candidate with member id 103. -/
def cand103 : Candidate :=
  { memberId := 103, email := "c@x.com", firstName := "C", lastName := "Three" }

/-- A report row for the pair (3, 103) with zero visits. -/
def ref103 : ReferralRecord :=
  { givingMemberId := 3, givingMemberFirstName := "G", givingMemberLastName := "Three"
    receivingMemberId := 103, receivingMemberEmail := "c@x.com"
    receivingMemberVisits := some 0, receivingMemberTotalSpend := some 0
    homeLocation := none }

/-- Attempt outcomes with two failures followed by a success. -/
def retryAttemptsCx : Nat → Except String Nat :=
  fun k => if k ≤ 2 then .error "boom" else .ok 42

/-- Poll outcomes: a server-reported failure followed by completion. -/
def pollResponsesCx : Nat → PollResponse Nat :=
  fun k => if k = 0 then .failed else .completed (some [7]) none

/-- Poll outcomes that report failure on every attempt. -/
def pollFailedResponses : Nat → PollResponse Nat := fun _ => .failed

/- Helper lemmas shared by the theorems below. -/

/-- Loop-body fact: when the receiving member is matched and the ledger
point query returns at least one row, the record is skipped with no
issuer call, no commit, and an unchanged ledger. -/
theorem processRecord_existing_row (customers : List Candidate)
    (issuer : ReferralRecord → Bool) (ledger : List LedgerRow)
    (referral : ReferralRecord) (c : Candidate)
    (hc : customerMapGet customers referral.receivingMemberId = some c)
    (hrow : ledgerLookup ledger referral.givingMemberId referral.receivingMemberId ≠ []) :
    processRecord customers issuer true ledger referral =
      { ledger := ledger, skipped := true, rewarded := false
        issuerCalls := [], ledgerLookups := 1, commits := 0 } := by
  cases hdata : ledgerLookup ledger referral.givingMemberId referral.receivingMemberId with
  | nil => exact absurd hdata hrow
  | cons a t =>
    simp only [processRecord, hc]
    simp [checkIfAlreadyProcessed, hdata]

/-- A list containing the stored row for a pair is nonempty when looked up. -/
theorem ledgerLookup_mem (ledger : List LedgerRow) (row : LedgerRow)
    (hrow : row ∈ ledger) (g r : Nat) (hg : row.givingMemberId = g)
    (hr : row.receivingMemberId = r) : row ∈ ledgerLookup ledger g r := by
  simp [ledgerLookup, List.mem_filter, hrow, hg, hr]

/- Claim theorems. -/

/-- C1: when the ledger lookup for the pair finds an existing row —
whether `givingMemberRewarded` is true or false; the row's fields are
unconstrained here — the Reward Issuer is not invoked for that record,
no ledger commit is made in this run, the ledger is unchanged, and the
record is counted as skipped.  In particular a row with
`givingMemberRewarded = true` can never lead to a second issuance. -/
theorem ledger_gate_existing_row_skips (customers : List Candidate)
    (issuer : ReferralRecord → Bool) (ledger : List LedgerRow)
    (referral : ReferralRecord) (c : Candidate)
    (hc : customerMapGet customers referral.receivingMemberId = some c)
    (hrow : ledgerLookup ledger referral.givingMemberId referral.receivingMemberId ≠ []) :
    processRecord customers issuer true ledger referral =
      { ledger := ledger, skipped := true, rewarded := false
        issuerCalls := [], ledgerLookups := 1, commits := 0 } :=
  processRecord_existing_row customers issuer ledger referral c hc hrow

/-- C1 witness: the pair (4, 5) has a rewarded ledger row, so its record
is skipped with no issuer call and no commit. -/
theorem ledger_gate_existing_row_skips_witness :
    processRecord [candD] (fun _ => true) true [rowCD] refCD =
      { ledger := [rowCD], skipped := true, rewarded := false
        issuerCalls := [], ledgerLookups := 1, commits := 0 } :=
  ledger_gate_existing_row_skips [candD] (fun _ => true) [rowCD] refCD candD
    (by decide) (by decide)

/-- C2 counterexample: the pair (1, 2) has a ledger row with
`givingMemberRewarded = false`; a later run sights the pair again with
fresher visit data (7 instead of the stored 5), yet the run leaves the
ledger byte-for-byte unchanged and counts the record as skipped — the
row is not refreshed. -/
theorem existing_unrewarded_row_not_refreshed_cx :
    rowAB.givingMemberRewarded = false ∧
    (processReferralRewards [candB] (fun _ => true) true [rowAB] [refAB]).ledger = [rowAB] ∧
    (processReferralRewards [candB] (fun _ => true) true [rowAB] [refAB]).skippedCount = 1 ∧
    (processReferralRewards [candB] (fun _ => true) true [rowAB] [refAB]).issuerCalls = [] ∧
    rowAB.receivingMemberVisits ≠ jsOrNat refAB.receivingMemberVisits 1 := by
  decide

/-- C2 (amended): a subsequent sighting of a pair whose row exists with
`givingMemberRewarded = false` is skipped and the ledger is unchanged; the
non-reward fields are refreshed only by the uniqueness-conflict update
path of `updateSupabaseRecord`, which a sighting reaches only when the
ledger read did not report the row.  That path overwrites
`receivingMemberVisits`, `receivingMemberTotalSpend` and
`givingMemberRewarded` on the pair's row, recomputes `processing_status`
through the trigger, and inserts no new row. -/
theorem existing_unrewarded_row_refresh_only_on_conflict
    (customers : List Candidate) (issuer : ReferralRecord → Bool)
    (ledger : List LedgerRow) (referral : ReferralRecord) (c : Candidate)
    (rec : SupabaseRecord) (row : LedgerRow)
    (hc : customerMapGet customers referral.receivingMemberId = some c)
    (hrow : row ∈ ledger)
    (hgiv : row.givingMemberRewarded = false)
    (hg : row.givingMemberId = rec.givingMemberId)
    (hr : row.receivingMemberId = rec.receivingMemberId)
    (hpg : row.givingMemberId = referral.givingMemberId)
    (hpr : row.receivingMemberId = referral.receivingMemberId) :
    (processRecord customers issuer true ledger referral).ledger = ledger ∧
    (processRecord customers issuer true ledger referral).skipped = true ∧
    (processRecord customers issuer true ledger referral).commits = 0 ∧
    (updateSupabaseRecord ledger rec).2 = true ∧
    ((updateSupabaseRecord ledger rec).1).length = ledger.length ∧
    applyConflictUpdate rec row ∈ (updateSupabaseRecord ledger rec).1 ∧
    (applyConflictUpdate rec row).receivingMemberVisits = rec.receivingMemberVisits ∧
    (applyConflictUpdate rec row).receivingMemberTotalSpend = rec.receivingMemberTotalSpend ∧
    (applyConflictUpdate rec row).givingMemberRewarded = rec.givingMemberRewarded ∧
    (applyConflictUpdate rec row).processing_status =
      (if 1 ≤ rec.receivingMemberVisits then "qualified" else "not_qualified") := by
  have hmemP : row ∈ ledgerLookup ledger referral.givingMemberId referral.receivingMemberId :=
    ledgerLookup_mem ledger row hrow _ _ hpg hpr
  have hneP : ledgerLookup ledger referral.givingMemberId referral.receivingMemberId ≠ [] := by
    intro hnil
    rw [hnil] at hmemP
    exact absurd hmemP (List.not_mem_nil row)
  have hskip := processRecord_existing_row customers issuer ledger referral c hc hneP
  have hmemR : row ∈ ledgerLookup ledger rec.givingMemberId rec.receivingMemberId :=
    ledgerLookup_mem ledger row hrow _ _ hg hr
  have hempty : (ledgerLookup ledger rec.givingMemberId rec.receivingMemberId).isEmpty = false := by
    cases hL : ledgerLookup ledger rec.givingMemberId rec.receivingMemberId with
    | nil => rw [hL] at hmemR; exact absurd hmemR (List.not_mem_nil row)
    | cons a t => rfl
  have hupd : updateSupabaseRecord ledger rec = (ledger.map (applyConflictUpdate rec), true) := by
    simp [updateSupabaseRecord, hempty]
  have hcond : (row.givingMemberId == rec.givingMemberId &&
      row.receivingMemberId == rec.receivingMemberId) = true := by
    simp [hg, hr]
  refine ⟨by rw [hskip], by rw [hskip], by rw [hskip], by rw [hupd], ?_, ?_, ?_, ?_, ?_, ?_⟩
  · rw [hupd]
    exact List.length_map ledger (applyConflictUpdate rec)
  · rw [hupd]
    exact List.mem_map_of_mem (applyConflictUpdate rec) hrow
  · simp [applyConflictUpdate, hcond, update_qualification_status]
  · simp [applyConflictUpdate, hcond, update_qualification_status]
  · simp [applyConflictUpdate, hcond, update_qualification_status]
  · simp [applyConflictUpdate, hcond, update_qualification_status]

/-- C2 witness: the existing unrewarded (1, 2) row makes the sighting a
skip, while a direct conflict-path commit would refresh the visit count. -/
theorem existing_unrewarded_row_refresh_only_on_conflict_witness :
    (processRecord [candB] (fun _ => true) true [rowAB] refAB).ledger = [rowAB] ∧
    (applyConflictUpdate recAB rowAB).receivingMemberVisits = recAB.receivingMemberVisits := by
  have h := existing_unrewarded_row_refresh_only_on_conflict [candB] (fun _ => true)
    [rowAB] refAB candB recAB rowAB (by decide) (by decide) (by decide) (by decide)
    (by decide) (by decide) (by decide)
  exact ⟨h.1, h.2.2.2.2.2.2.1⟩

/-- C3: for a record whose receiving member is matched and whose pair has
no ledger row, zero reported visits means the Reward Issuer is never
invoked, while one or more visits means it is invoked exactly once, with
the record's giving member and resolved location. -/
theorem qualification_threshold_gates_issuer (customers : List Candidate)
    (issuer : ReferralRecord → Bool) (ledger : List LedgerRow)
    (referral : ReferralRecord) (c : Candidate)
    (hc : customerMapGet customers referral.receivingMemberId = some c)
    (hno : ledgerLookup ledger referral.givingMemberId referral.receivingMemberId = []) :
    (referral.receivingMemberVisits = some 0 →
      (processRecord customers issuer true ledger referral).issuerCalls = []) ∧
    (∀ n : Nat, referral.receivingMemberVisits = some n → 1 ≤ n →
      (processRecord customers issuer true ledger referral).issuerCalls =
        [(referral.givingMemberId, getLocationIdFromName referral.homeLocation)]) := by
  constructor
  · intro h0
    simp only [processRecord, hc]
    simp [checkIfAlreadyProcessed, hno, jsOrNat, h0]
  · intro n hn hn1
    have hne : n ≠ 0 := by omega
    simp only [processRecord, hc]
    simp [checkIfAlreadyProcessed, hno, jsOrNat, hn, hne, hn1]

/-- C3 witness: the fresh qualified pair (7, 8) with two visits triggers
exactly one issuer call. -/
theorem qualification_threshold_gates_issuer_witness :
    (processRecord [candE] (fun _ => true) true [] refE).issuerCalls =
      [(refE.givingMemberId, getLocationIdFromName refE.homeLocation)] := by
  have h := qualification_threshold_gates_issuer [candE] (fun _ => true) [] refE candE
    (by decide) (by decide)
  exact h.2 2 rfl (by decide)

/-- C4: a record whose receiving member id is absent from the candidate
lookup map triggers no ledger lookup, no ledger write, and no issuer
call — the loop body leaves everything unchanged. -/
theorem unmatched_receiver_ignored (customers : List Candidate)
    (issuer : ReferralRecord → Bool) (readOk : Bool) (ledger : List LedgerRow)
    (referral : ReferralRecord)
    (hc : customerMapGet customers referral.receivingMemberId = none) :
    processRecord customers issuer readOk ledger referral =
      { ledger := ledger, skipped := false, rewarded := false
        issuerCalls := [], ledgerLookups := 0, commits := 0 } := by
  simp only [processRecord, hc]

/-- C4 witness: receiving member 104 is not among the candidates, so its
record is ignored entirely. -/
theorem unmatched_receiver_ignored_witness :
    processRecord [candB] (fun _ => true) true [rowAB] ref104 =
      { ledger := [rowAB], skipped := false, rewarded := false
        issuerCalls := [], ledgerLookups := 0, commits := 0 } :=
  unmatched_receiver_ignored [candB] (fun _ => true) true [rowAB] ref104 (by decide)

/-- Auxiliary induction for C5: a window of nothing but `pending` polls
exhausts the remaining fuel and ends in the timeout error. -/
theorem pollLoop_pending (responses : Nat → PollResponse Nat) :
    ∀ (fuel attempt : Nat),
      (∀ k, attempt ≤ k → k < attempt + fuel → responses k = .pending) →
      pollLoop responses attempt fuel = .error .timeout := by
  intro fuel
  induction fuel with
  | zero => intro attempt _; rfl
  | succ n ih =>
    intro attempt h
    have hp : responses attempt = .pending := h attempt le_rfl (by omega)
    simp only [pollLoop, hp]
    exact ih (attempt + 1) (fun k hk1 hk2 => h k (by omega) (by omega))

/-- C5: if every status poll within the `POLL_MAX_ATTEMPTS` budget
returns `pending`, the polling operation raises the timeout error and
never returns an item list. -/
theorem poll_all_pending_times_out (responses : Nat → PollResponse Nat)
    (h : ∀ k, k < POLL_MAX_ATTEMPTS → responses k = .pending) :
    pollReferralReport responses = .error .timeout :=
  pollLoop_pending responses POLL_MAX_ATTEMPTS 0 (fun k _ hk2 => h k (by omega))

/-- C5 witness: a report stuck on `pending` forever times out. -/
theorem poll_all_pending_times_out_witness :
    pollReferralReport (fun _ => (.pending : PollResponse Nat)) = .error .timeout :=
  poll_all_pending_times_out (fun _ => .pending) (fun _ _ => rfl)

/-- C6 counterexample: a poll that reports `failed` on the first attempt
and `completed` on the second makes the operation return the item list —
the `failed` status did not stop the polling loop, refuting the claim
that a `failed` poll raises a terminal error and stops polling. -/
theorem poll_failed_then_completed_returns_items_cx :
    pollReferralReport pollResponsesCx = .ok [7] := by
  decide

/-- C6 (amended): a `failed` status raises an error that the polling
loop's own catch swallows: on any attempt with at least two attempts
remaining the loop simply continues with the next poll (the report is not
re-initiated), and only when `failed` arrives on the final remaining
attempt does the terminal server-failure error propagate. -/
theorem poll_failed_caught_until_last_attempt (responses : Nat → PollResponse Nat)
    (attempt fuel : Nat) (h : responses attempt = .failed) :
    pollLoop responses attempt (fuel + 1 + 1) = pollLoop responses (attempt + 1) (fuel + 1) ∧
    pollLoop responses attempt 1 = .error .serverFailed := by
  constructor
  · simp only [pollLoop, h]
    rw [if_neg (by omega : ¬ (fuel + 1 = 0))]
  · show pollLoop responses attempt (0 + 1) = .error .serverFailed
    simp only [pollLoop, h]
    simp

/-- C6 witness: with every poll reporting `failed`, the first attempt of
a two-attempt budget is swallowed and a one-attempt budget propagates
the server-failure error. -/
theorem poll_failed_caught_until_last_attempt_witness :
    pollLoop pollFailedResponses 0 (0 + 1 + 1) = pollLoop pollFailedResponses 1 (0 + 1) ∧
    pollLoop pollFailedResponses 0 1 = .error .serverFailed :=
  poll_failed_caught_until_last_attempt pollFailedResponses 0 0 rfl

/-- C7 counterexample: with `MAX_RETRIES = 3`, a run of N = 2 consecutive
failures (N < max attempts) followed by a success returns the success —
no error is raised — after a total delay of 3000 ms, not the
`sum k=1..N-1` = 1000 ms the claim predicts. -/
theorem retry_two_failures_then_success_cx :
    sendRequestWithRetry retryAttemptsCx = (.ok 42, 3000) ∧
    (sendRequestWithRetry retryAttemptsCx).2 ≠ retryDelayMs 1 ∧
    retryDelayMs 1 = 1000 := by
  decide

/-- C7 (amended): for the run in which all `MAX_RETRIES = 3` attempts
fail (N equal to the maximum attempt count), the total delay waited is
the sum over k = 1..N-1 of `min(base * 2^(k-1), cap)`, and the executor
raises the final (third) attempt's error after the Nth failure. -/
theorem retry_exhaustion_backoff_total (attempts : Nat → Except String Nat)
    (e1 e2 e3 : String) (h1 : attempts 1 = .error e1)
    (h2 : attempts 2 = .error e2) (h3 : attempts 3 = .error e3) :
    sendRequestWithRetry attempts =
      (.error e3, min (INITIAL_RETRY_DELAY * 2 ^ 0) MAX_RETRY_DELAY +
        min (INITIAL_RETRY_DELAY * 2 ^ 1) MAX_RETRY_DELAY) := by
  simp [sendRequestWithRetry, MAX_RETRIES, retryLoop, h1, h2, h3,
    retryDelayMs, INITIAL_RETRY_DELAY, MAX_RETRY_DELAY]

/-- C7 witness: all attempts failing yields the final error after the
capped exponential delays of the first two failures. -/
theorem retry_exhaustion_backoff_total_witness :
    sendRequestWithRetry (fun _ => (.error "x" : Except String Nat)) =
      (.error "x", min (INITIAL_RETRY_DELAY * 2 ^ 0) MAX_RETRY_DELAY +
        min (INITIAL_RETRY_DELAY * 2 ^ 1) MAX_RETRY_DELAY) :=
  retry_exhaustion_backoff_total (fun _ => .error "x") "x" "x" "x" rfl rfl rfl

/-- C8: a failed ledger point lookup (query error or thrown exception)
makes the gate report the pair as not processed and not rewarded, and a
record whose read fails is consequently not skipped by the gate. -/
theorem ledger_read_error_reports_not_processed (e : String) :
    checkIfAlreadyProcessed (.error e) =
      { processed := false, rewarded := false, status := none } ∧
    ∀ (customers : List Candidate) (issuer : ReferralRecord → Bool)
      (ledger : List LedgerRow) (referral : ReferralRecord) (c : Candidate),
      customerMapGet customers referral.receivingMemberId = some c →
      (processRecord customers issuer false ledger referral).skipped = false := by
  refine ⟨rfl, ?_⟩
  intro customers issuer ledger referral c hc
  simp only [processRecord, hc]
  simp [checkIfAlreadyProcessed]

/-- C8 witness: a concrete read error for the pair (1, 2) reports not
processed, and the sighting of the pair is not skipped despite the
stored row. -/
theorem ledger_read_error_reports_not_processed_witness :
    checkIfAlreadyProcessed (.error "boom") =
      { processed := false, rewarded := false, status := none } ∧
    (processRecord [candB] (fun _ => true) false [rowAB] refAB).skipped = false := by
  have h := ledger_read_error_reports_not_processed "boom"
  exact ⟨h.1, h.2 [candB] (fun _ => true) [rowAB] refAB candB (by decide)⟩

/-- C9: code evaluation at the failing input — a matched record with
`receivingMemberVisits = 0` and no existing ledger row never reaches the
issuer, but the committed row carries `receivingMemberVisits = 1` (the
commit defaults falsy visit counts to 1), so the database trigger marks
it `qualified` rather than `not_qualified`; `givingMemberRewarded` is
false as claimed. -/
theorem zero_visits_committed_as_one_visit_qualified :
    (processRecord [cand103] (fun _ => true) true [] ref103).issuerCalls = [] ∧
    (processRecord [cand103] (fun _ => true) true [] ref103).commits = 1 ∧
    ((processRecord [cand103] (fun _ => true) true [] ref103).ledger.map
      (fun row => (row.receivingMemberVisits, row.processing_status, row.givingMemberRewarded))) =
      [(1, "qualified", false)] := by
  decide

/-- C10: location-name resolution is total — each of the three mapped
names yields its mapped id, every other name (and an absent name) yields
the default id 9030, and every possible input resolves to one of the
three mapped ids, so the issuer call never lacks a location id. -/
theorem location_resolution_total :
    getLocationIdFromName (some "Kwality House, Kemps Corner") = 9030 ∧
    getLocationIdFromName (some "Supreme HQ, Bandra") = 29821 ∧
    getLocationIdFromName (some "Kenkere House") = 22116 ∧
    getLocationIdFromName none = 9030 ∧
    (∀ name : String, name ≠ "Kwality House, Kemps Corner" →
      name ≠ "Supreme HQ, Bandra" → name ≠ "Kenkere House" →
      getLocationIdFromName (some name) = 9030) ∧
    (∀ loc : Option String, getLocationIdFromName loc = 9030 ∨
      getLocationIdFromName loc = 29821 ∨ getLocationIdFromName loc = 22116) := by
  refine ⟨rfl, rfl, rfl, rfl, ?_, ?_⟩
  · intro name h1 h2 h3
    simp [getLocationIdFromName, LOCATIONS, h1, h2, h3]
  · intro loc
    cases loc with
    | none => left; rfl
    | some name =>
      by_cases h1 : name = "Kwality House, Kemps Corner"
      · left; simp [getLocationIdFromName, LOCATIONS, h1]
      · by_cases h2 : name = "Supreme HQ, Bandra"
        · right; left; simp [getLocationIdFromName, LOCATIONS, h1, h2]
        · by_cases h3 : name = "Kenkere House"
          · right; right; simp [getLocationIdFromName, LOCATIONS, h1, h2, h3]
          · left; simp [getLocationIdFromName, LOCATIONS, h1, h2, h3]

/-- C10 witness: an unmapped location name resolves to the default id. -/
theorem location_resolution_total_witness :
    getLocationIdFromName (some "Bandra West") = 9030 :=
  location_resolution_total.2.2.2.2.1 "Bandra West" (by decide) (by decide) (by decide)

end Referral
